import Mathlib

/-!
Verification of the `coordinate-frame` crate's frame-generation logic.

The derive macro in `coordinate-frame-derive/src/lib.rs` consumes the
`CoordinateFrameType` enum (48 real frames plus the sentinels `Other` and
`Undefined`) and, for every real frame, generates a coordinate type with
native axis accessors, sign-derived accessors, pairwise `From` conversions,
`flip_frame`, `to_ned`/`to_enu`, a handedness constant, base vectors and
positional cross/dot products.  This file embeds that generated behaviour
shallowly: a frame is its ordered triple of axis components (the result of
`split_variant_name_into_components`), and the generated accessor and
conversion code is modelled as functions over those triples, generic in the
scalar type and its `saturating_neg` implementation.
-/

set_option maxRecDepth 8192

/-- Axis directions, the six name tokens recognised by the derive macro
(`north`, `south`, `east`, `west`, `up`, `down`). -/
inductive Axis : Type where
  | north : Axis
  | south : Axis
  | east : Axis
  | west : Axis
  | up : Axis
  | down : Axis
deriving DecidableEq, Repr, Fintype

/-- The opposite direction within an axis' mutually exclusive pair, as found
by the macro's search through `MUTUALLY_EXCLUSIVE`. -/
def Axis.opposite : Axis → Axis
  | .north => .south
  | .south => .north
  | .east => .west
  | .west => .east
  | .up => .down
  | .down => .up

/-- Index of the mutually exclusive pair an axis belongs to, mirroring the
macro's `MUTUALLY_EXCLUSIVE = [LATERAL, LONGITUDINAL, VERTICAL]` table. -/
def Axis.pair : Axis → Fin 3
  | .east => 0
  | .west => 0
  | .north => 1
  | .south => 1
  | .down => 2
  | .up => 2

/-- A non-sentinel coordinate frame, identified by its ordered axis
decomposition `[c0, c1, c2]` as produced by
`split_variant_name_into_components`. -/
structure Frame : Type where
  c0 : Axis
  c1 : Axis
  c2 : Axis
deriving DecidableEq, Repr, Fintype

/-- The positional component of a frame (its i-th axis token). -/
def Frame.comp (f : Frame) : Fin 3 → Axis :=
  fun i => if i = 0 then f.c0 else if i = 1 then f.c1 else f.c2

/-- A frame is valid when its three components come from three different
mutually exclusive pairs; the macro enforces this by panicking during
generation otherwise. -/
def Frame.valid (f : Frame) : Bool :=
  f.c0.pair != f.c1.pair && f.c0.pair != f.c2.pair && f.c1.pair != f.c2.pair

/-- Position of an axis among a frame's native components, if present.
For a valid frame this is unambiguous. -/
def Frame.nativeIdx (f : Frame) (a : Axis) : Option (Fin 3) :=
  if f.c0 = a then some 0
  else if f.c1 = a then some 1
  else if f.c2 = a then some 2
  else none

/-- The frame whose axes are the componentwise opposites, the target type of
the generated `flip_frame`. -/
def Frame.flip (f : Frame) : Frame :=
  ⟨f.c0.opposite, f.c1.opposite, f.c2.opposite⟩

/-- The axis accessor surface generated for a frame: a native component is
read directly from its position; a non-native axis is the saturating
negation of its opposite (native) component's value.  The generated code
only exposes accessors for the three native axes and their three opposites;
for an axis whose pair is missing from an (invalid) frame the model returns
`v 0`, a branch unreachable for the valid frames all theorems range over. -/
def getAxis {T : Type} (sneg : T → T) (f : Frame) (v : Fin 3 → T) (a : Axis) : T :=
  match f.nativeIdx a with
  | some i => v i
  | none =>
    match f.nativeIdx a.opposite with
    | some i => sneg (v i)
    | none => v 0

/-- The generated `impl From<src<T>> for dst<T>`: each of the destination's
components is read from the source via the (native or derived) accessor for
that axis and passed to the destination's constructor in its declared
order. -/
def convert {T : Type} (sneg : T → T) (src dst : Frame) (v : Fin 3 → T) : Fin 3 → T :=
  fun i => getAxis sneg src v (dst.comp i)

/-- The generated `flip_frame`, which is `(*self).into()` at the flipped
frame type, i.e. the pairwise conversion into `Frame.flip`. -/
def flipFrame {T : Type} (sneg : T → T) (f : Frame) (v : Fin 3 → T) : Fin 3 → T :=
  convert sneg f f.flip v

/-- North-East-Down, the aerospace frame. -/
def nedFrame : Frame := ⟨.north, .east, .down⟩

/-- East-North-Up, the geography frame. -/
def enuFrame : Frame := ⟨.east, .north, .up⟩

/-- The generated `to_ned`: reads the `north`, `east` and `down` accessors
and passes them to `NorthEastDown::new`. -/
def toNed {T : Type} (sneg : T → T) (f : Frame) (v : Fin 3 → T) : Fin 3 → T :=
  convert sneg f nedFrame v

/-- The generated `to_enu`: reads the `east`, `north` and `up` accessors and
passes them to `EastNorthUp::new`. -/
def toEnu {T : Type} (sneg : T → T) (f : Frame) (v : Fin 3 → T) : Fin 3 → T :=
  convert sneg f enuFrame v

/-- The 48 real frames in `CoordinateFrameType` declaration order
(ordinals 0 through 47), each decomposed into its three axis tokens. -/
def catalog : List Frame :=
  [⟨.north, .east, .down⟩, ⟨.north, .east, .up⟩,
   ⟨.north, .west, .down⟩, ⟨.north, .west, .up⟩,
   ⟨.north, .down, .east⟩, ⟨.north, .down, .west⟩,
   ⟨.north, .up, .east⟩, ⟨.north, .up, .west⟩,
   ⟨.east, .north, .down⟩, ⟨.east, .north, .up⟩,
   ⟨.east, .south, .down⟩, ⟨.east, .south, .up⟩,
   ⟨.east, .down, .north⟩, ⟨.east, .down, .south⟩,
   ⟨.east, .up, .north⟩, ⟨.east, .up, .south⟩,
   ⟨.south, .east, .down⟩, ⟨.south, .east, .up⟩,
   ⟨.south, .west, .down⟩, ⟨.south, .west, .up⟩,
   ⟨.south, .down, .east⟩, ⟨.south, .down, .west⟩,
   ⟨.south, .up, .east⟩, ⟨.south, .up, .west⟩,
   ⟨.west, .north, .down⟩, ⟨.west, .north, .up⟩,
   ⟨.west, .south, .down⟩, ⟨.west, .south, .up⟩,
   ⟨.west, .down, .north⟩, ⟨.west, .down, .south⟩,
   ⟨.west, .up, .north⟩, ⟨.west, .up, .south⟩,
   ⟨.down, .north, .east⟩, ⟨.down, .north, .west⟩,
   ⟨.down, .east, .north⟩, ⟨.down, .east, .south⟩,
   ⟨.down, .south, .east⟩, ⟨.down, .south, .west⟩,
   ⟨.down, .west, .north⟩, ⟨.down, .west, .south⟩,
   ⟨.up, .north, .east⟩, ⟨.up, .north, .west⟩,
   ⟨.up, .east, .north⟩, ⟨.up, .east, .south⟩,
   ⟨.up, .south, .east⟩, ⟨.up, .south, .west⟩,
   ⟨.up, .west, .north⟩, ⟨.up, .west, .south⟩]

/-- Rust's `i8::MIN`. -/
def i8Min : Int := -128

/-- Rust's `i8::MAX`. -/
def i8Max : Int := 127

/-- The `SaturatingNeg` implementation for `i8` in `traits.rs`, which
delegates to `i8::saturating_neg`: ordinary negation except that the
minimum saturates to the maximum. -/
def satNegI8 (v : Int) : Int :=
  if v = i8Min then i8Max else -v

/-- The `SaturatingNeg` implementation for `f32`/`f64` in `traits.rs`:
plain negation (IEEE negation is an exact sign-bit flip, so the rationals
model it faithfully). -/
def satNegFloat (v : Rat) : Rat := -v

/-! Helper facts about valid frames, each established by enumerating the
finite `Frame` type. -/

/-- Every catalogued frame is valid. -/
theorem catalog_valid : ∀ f ∈ catalog, f.valid = true := by decide

/-- In a valid frame, positional lookup of the i-th component finds
position i. -/
theorem nativeIdx_comp (f : Frame) (hf : f.valid = true) (i : Fin 3) :
    f.nativeIdx (f.comp i) = some i := by
  revert i hf
  revert f
  decide

/-- A successful native lookup returns a position holding that axis. -/
theorem comp_nativeIdx (f : Frame) (a : Axis) (i : Fin 3)
    (h : f.nativeIdx a = some i) : f.comp i = a := by
  revert h
  revert f a i
  decide

/-- In a valid frame, an axis without a native position has its opposite at
some native position. -/
theorem nativeIdx_opposite_isSome (f : Frame) (a : Axis) (hf : f.valid = true)
    (h : f.nativeIdx a = none) : (f.nativeIdx a.opposite).isSome = true := by
  revert hf h
  revert f a
  decide

/-- In a valid frame, the opposite of a native axis has no native
position. -/
theorem nativeIdx_opposite_none (f : Frame) (a : Axis) (i : Fin 3)
    (hf : f.valid = true) (h : f.nativeIdx a = some i) :
    f.nativeIdx a.opposite = none := by
  revert hf h
  revert f a i
  decide

/-- Taking the opposite twice is the identity. -/
theorem opposite_opposite (a : Axis) : a.opposite.opposite = a := by
  cases a <;> rfl

/-- Reading a native axis returns the stored component unchanged. -/
theorem getAxis_native {T : Type} (sneg : T → T) (f : Frame) (v : Fin 3 → T)
    (a : Axis) (i : Fin 3) (h : f.nativeIdx a = some i) :
    getAxis sneg f v a = v i := by
  simp [getAxis, h]

/-- Reading a non-native axis of a valid frame saturating-negates the
opposite native component. -/
theorem getAxis_derived {T : Type} (sneg : T → T) (f : Frame) (v : Fin 3 → T)
    (a : Axis) (hf : f.valid = true) (h : f.nativeIdx a = none) :
    ∃ i, f.nativeIdx a.opposite = some i ∧ getAxis sneg f v a = sneg (v i) := by
  have hs := nativeIdx_opposite_isSome f a hf h
  rcases ho : f.nativeIdx a.opposite with _ | i
  · rw [ho] at hs
    simp at hs
  · exact ⟨i, rfl, by simp [getAxis, h, ho]⟩

/-- Flipping a frame is an involution on frames. -/
theorem flip_flip (f : Frame) : f.flip.flip = f := by
  cases f with
  | mk a b c => simp [Frame.flip, opposite_opposite]

/-- The flipped frame's components are the componentwise opposites. -/
theorem flip_comp (f : Frame) (i : Fin 3) : f.flip.comp i = (f.comp i).opposite := by
  fin_cases i <;> rfl

/-- Flipping preserves validity. -/
theorem flip_valid (f : Frame) (hf : f.valid = true) : f.flip.valid = true := by
  revert hf
  revert f
  decide

/-- The catalog is closed under flipping. -/
theorem flip_mem_catalog (f : Frame) (hf : f ∈ catalog) : f.flip ∈ catalog := by
  revert hf
  revert f
  decide

/-- The generated `flip_frame` negates all three components in place: every
component of the flipped frame is non-native in the source, so each is
read through the derived (saturating-negation) accessor of its opposite,
which sits at the same position. -/
theorem flipFrame_eq {T : Type} (sneg : T → T) (f : Frame) (hf : f.valid = true)
    (v : Fin 3 → T) : flipFrame sneg f v = fun i => sneg (v i) := by
  funext i
  simp only [flipFrame, convert]
  have hc : f.nativeIdx (f.comp i) = some i := nativeIdx_comp f hf i
  have hn : f.nativeIdx ((f.comp i).opposite) = none :=
    nativeIdx_opposite_none f (f.comp i) i hf hc
  rw [flip_comp]
  obtain ⟨j, hj, he⟩ := getAxis_derived sneg f v ((f.comp i).opposite) hf hn
  rw [opposite_opposite, hc] at hj
  cases hj
  exact he

/-- Converting from frame B to frame A and back is the identity whenever
double saturating negation fixes every component: a component with a native
home in both frames is copied verbatim, and one without is negated on the
way out and negated again on the way back. -/
theorem convert_convert (A B : Frame) (hA : A.valid = true) (hB : B.valid = true)
    {T : Type} (sneg : T → T) (v : Fin 3 → T)
    (hv : ∀ i, sneg (sneg (v i)) = v i) :
    convert sneg A B (convert sneg B A v) = v := by
  funext i
  simp only [convert]
  have hBc : B.nativeIdx (B.comp i) = some i := nativeIdx_comp B hB i
  rcases h : A.nativeIdx (B.comp i) with _ | k
  · obtain ⟨k, hk, he⟩ := getAxis_derived sneg A (convert sneg B A v) (B.comp i) hA h
    rw [he]
    have hAk : A.comp k = (B.comp i).opposite := comp_nativeIdx A _ k hk
    simp only [convert, hAk]
    have hBo : B.nativeIdx ((B.comp i).opposite) = none :=
      nativeIdx_opposite_none B (B.comp i) i hB hBc
    obtain ⟨j, hj, he2⟩ := getAxis_derived sneg B v ((B.comp i).opposite) hB hBo
    rw [he2]
    rw [opposite_opposite, hBc] at hj
    cases hj
    exact hv i
  · rw [getAxis_native sneg A _ _ k h]
    simp only [convert]
    rw [comp_nativeIdx A (B.comp i) k h]
    exact getAxis_native sneg B v _ i hBc

/-- South-West-Up, the componentwise opposite of North-East-Down. -/
def swuFrame : Frame := ⟨.south, .west, .up⟩

/-- C1 (counterexample): with the `i8` scalar, converting the
North-East-Down coordinate (-128, 0, 0) to South-West-Up and back yields
(-127, 0, 0), not the original: saturating negation is not involutive at
`i8::MIN`, so the round trip is not the identity and conversion is not a
bijection for this exact integer scalar type. -/
theorem roundtrip_i8_min_counterexample :
    nedFrame ∈ catalog ∧ swuFrame ∈ catalog ∧ nedFrame ≠ swuFrame ∧
    convert satNegI8 swuFrame nedFrame
      (convert satNegI8 nedFrame swuFrame ![(-128 : Int), 0, 0]) = ![(-127 : Int), 0, 0] ∧
    convert satNegI8 swuFrame nedFrame
      (convert satNegI8 nedFrame swuFrame ![(-128 : Int), 0, 0]) ≠ ![(-128 : Int), 0, 0] := by
  decide

/-- C1 (amended): for every ordered pair of distinct non-sentinel frames
(A, B) and every coordinate v of frame B each of whose components is fixed
by double saturating negation (for signed integers: no component equals the
type's minimum value), converting v to frame A and back yields v exactly. -/
theorem roundtrip_conversion_amended :
    ∀ A B : Frame, A ∈ catalog → B ∈ catalog → A ≠ B →
    ∀ {T : Type} (sneg : T → T) (v : Fin 3 → T),
    (∀ i, sneg (sneg (v i)) = v i) →
    convert sneg A B (convert sneg B A v) = v := by
  intro A B hA hB _ T sneg v hv
  exact convert_convert A B (catalog_valid A hA) (catalog_valid B hB) sneg v hv

/-- C1 (witness): the amended round trip applied concretely, with the `i8`
scalar model, to the South-West-Up coordinate (5, -3, 100) through
North-East-Down. -/
theorem roundtrip_conversion_amended_witness :
    convert satNegI8 nedFrame swuFrame
      (convert satNegI8 swuFrame nedFrame ![(5 : Int), -3, 100]) = ![(5 : Int), -3, 100] :=
  roundtrip_conversion_amended nedFrame swuFrame (by decide) (by decide) (by decide)
    satNegI8 ![(5 : Int), -3, 100] (by decide)

/-- C2 (counterexample): with the `i8` scalar, flipping the North-East-Down
coordinate (-128, 0, 0) twice yields (-127, 0, 0), not the original:
`saturating_neg` maps -128 to 127 and 127 back to -127, so the double flip
is not the identity at the minimum signed value. -/
theorem flip_involution_i8_min_counterexample :
    nedFrame ∈ catalog ∧
    flipFrame satNegI8 nedFrame.flip
      (flipFrame satNegI8 nedFrame ![(-128 : Int), 0, 0]) = ![(-127 : Int), 0, 0] ∧
    flipFrame satNegI8 nedFrame.flip
      (flipFrame satNegI8 nedFrame ![(-128 : Int), 0, 0]) ≠ ![(-128 : Int), 0, 0] := by
  decide

/-- C2 (amended): for every non-sentinel frame and every coordinate each of
whose components is fixed by double saturating negation (all floating-point
values and all signed integers except the type's minimum), applying
`flip_frame` twice returns the original coordinate. -/
theorem flip_involution_amended :
    ∀ f : Frame, f ∈ catalog →
    ∀ {T : Type} (sneg : T → T) (v : Fin 3 → T),
    (∀ i, sneg (sneg (v i)) = v i) →
    flipFrame sneg f.flip (flipFrame sneg f v) = v := by
  intro f hf T sneg v hv
  have hv1 := catalog_valid f hf
  have hv2 := flip_valid f hv1
  rw [flipFrame_eq sneg f hv1 v, flipFrame_eq sneg f.flip hv2]
  funext i
  exact hv i

/-- C2 (witness): the amended flip involution applied concretely, with the
`i8` scalar model, to the North-East-Down coordinate (7, -42, 19). -/
theorem flip_involution_amended_witness :
    flipFrame satNegI8 nedFrame.flip
      (flipFrame satNegI8 nedFrame ![(7 : Int), -42, 19]) = ![(7 : Int), -42, 19] :=
  flip_involution_amended nedFrame (by decide) satNegI8 ![(7 : Int), -42, 19] (by decide)

/-- C3: converting the North-East-Down coordinate (1.0, 2.0, 3.0) to
East-North-Up via the generated `From` conversion yields the raw component
triple (2.0, 1.0, -3.0).  The floating-point scalar is modelled by the
rationals with the `f64` `SaturatingNeg` implementation (plain negation,
exact in IEEE arithmetic). -/
theorem ned_to_enu_concrete :
    convert satNegFloat nedFrame enuFrame ![(1 : Rat), 2, 3] = ![(2 : Rat), 1, -3] := by
  decide

/-- C4: for every non-sentinel frame, instance and non-native axis, the
derived accessor returns exactly the saturating negation of the native
accessor of the opposite axis; for `i8`, negating the minimum yields the
maximum; and the floating-point `SaturatingNeg` implementation is plain
negation. -/
theorem derived_accessor_saturating_neg :
    (∀ f : Frame, f ∈ catalog → ∀ a : Axis, f.nativeIdx a = none →
      ∀ {T : Type} (sneg : T → T) (v : Fin 3 → T),
        getAxis sneg f v a = sneg (getAxis sneg f v a.opposite)) ∧
    satNegI8 i8Min = i8Max ∧
    (∀ q : Rat, satNegFloat q = -q) := by
  refine ⟨?_, rfl, fun _ => rfl⟩
  intro f hf a ha T sneg v
  have hval := catalog_valid f hf
  obtain ⟨i, hi, he⟩ := getAxis_derived sneg f v a hval ha
  rw [he, getAxis_native sneg f v a.opposite i hi]

/-- C4 (witness): on the North-East-Down instance (1, 2, 3) with the `i8`
scalar model, the derived `up` accessor equals the saturating negation of
the native `down` accessor. -/
theorem derived_accessor_saturating_neg_witness :
    getAxis satNegI8 nedFrame ![(1 : Int), 2, 3] Axis.up
      = satNegI8 (getAxis satNegI8 nedFrame ![(1 : Int), 2, 3] Axis.up.opposite) :=
  derived_accessor_saturating_neg.1 nedFrame (by decide) Axis.up (by decide)
    satNegI8 ![(1 : Int), 2, 3]

/-- The generated `cross` method: the standard positional cross-product
formula on the raw component array, identical for every frame. -/
def cross {T : Type} [Mul T] [Sub T] (a b : Fin 3 → T) : Fin 3 → T :=
  ![a 1 * b 2 - a 2 * b 1, a 2 * b 0 - a 0 * b 2, a 0 * b 1 - a 1 * b 0]

/-- The generated `dot` method: the positional sum of products, identical
for every frame. -/
def dot {T : Type} [Mul T] [Add T] (a b : Fin 3 → T) : T :=
  a 0 * b 0 + a 1 * b 1 + a 2 * b 2

/-- The macro's `axis_vec`: the canonical global-frame unit vector of an
axis.  The source computes in `f32`; every value involved is a small
integer, represented exactly, so integers model it faithfully. -/
def axis_vec (a : Axis) : Fin 3 → Int :=
  match a with
  | .north => ![0, 1, 0]
  | .south => ![0, -1, 0]
  | .east => ![1, 0, 0]
  | .west => ![-1, 0, 0]
  | .up => ![0, 0, 1]
  | .down => ![0, 0, -1]

/-- The macro's `vectors_equal`, which compares componentwise within an
epsilon of 1e-6; on the integer-valued vectors arising from `axis_vec` and
their cross products this coincides with exact equality. -/
def vectors_equal (v1 v2 : Fin 3 → Int) : Bool :=
  decide (v1 = v2)

/-- The macro's `is_right_handed`: cross the canonical vectors of the first
two components and compare with the third component's canonical vector. -/
def is_right_handed (f : Frame) : Bool :=
  vectors_equal (cross (axis_vec f.c0) (axis_vec f.c1)) (axis_vec f.c2)

/-- The generated `right_handed(&self)` const fn: it returns the
generation-time constant computed by `is_right_handed` and ignores the
instance data entirely. -/
def rightHandedInst {T : Type} (f : Frame) (_ : Fin 3 → T) : Bool :=
  is_right_handed f

/-- C5: for every non-sentinel frame, `right_handed()` is a constant
independent of instance data, equal to the cross-product test on the
frame's axis decomposition; North-East-Down and East-North-Up are both
right-handed. -/
theorem right_handed_determined_by_axes :
    ∀ f : Frame, f ∈ catalog →
    ∀ {T : Type} (v w : Fin 3 → T),
      rightHandedInst f v = rightHandedInst f w ∧
      rightHandedInst f v =
        vectors_equal (cross (axis_vec f.c0) (axis_vec f.c1)) (axis_vec f.c2) ∧
      rightHandedInst nedFrame v = true ∧
      rightHandedInst enuFrame v = true := by
  intro f _ T v w
  exact ⟨rfl, rfl, show is_right_handed nedFrame = true by decide,
    show is_right_handed enuFrame = true by decide⟩

/-- C5 (witness): handedness facts instantiated on the North-East-Down
frame with a concrete integer instance. -/
theorem right_handed_determined_by_axes_witness :
    rightHandedInst nedFrame ![(1 : Int), 2, 3] = true :=
  (right_handed_determined_by_axes nedFrame (by decide)
    ![(1 : Int), 2, 3] ![(1 : Int), 2, 3]).2.2.1

/-- The error type of `TryFrom<u8> for CoordinateFrameType` in `lib.rs`. -/
inductive ParseCoordinateFrameError : Type where
  | UnknownVariant : ParseCoordinateFrameError
deriving DecidableEq, Repr

/-- The `CoordinateFrameType` enum from `lib.rs`: the 48 real frames with
discriminants 0 through 47, plus the sentinels `Other` (48) and
`Undefined` (255). -/
inductive CoordinateFrameType : Type where
  | NorthEastDown : CoordinateFrameType
  | NorthEastUp : CoordinateFrameType
  | NorthWestDown : CoordinateFrameType
  | NorthWestUp : CoordinateFrameType
  | NorthDownEast : CoordinateFrameType
  | NorthDownWest : CoordinateFrameType
  | NorthUpEast : CoordinateFrameType
  | NorthUpWest : CoordinateFrameType
  | EastNorthDown : CoordinateFrameType
  | EastNorthUp : CoordinateFrameType
  | EastSouthDown : CoordinateFrameType
  | EastSouthUp : CoordinateFrameType
  | EastDownNorth : CoordinateFrameType
  | EastDownSouth : CoordinateFrameType
  | EastUpNorth : CoordinateFrameType
  | EastUpSouth : CoordinateFrameType
  | SouthEastDown : CoordinateFrameType
  | SouthEastUp : CoordinateFrameType
  | SouthWestDown : CoordinateFrameType
  | SouthWestUp : CoordinateFrameType
  | SouthDownEast : CoordinateFrameType
  | SouthDownWest : CoordinateFrameType
  | SouthUpEast : CoordinateFrameType
  | SouthUpWest : CoordinateFrameType
  | WestNorthDown : CoordinateFrameType
  | WestNorthUp : CoordinateFrameType
  | WestSouthDown : CoordinateFrameType
  | WestSouthUp : CoordinateFrameType
  | WestDownNorth : CoordinateFrameType
  | WestDownSouth : CoordinateFrameType
  | WestUpNorth : CoordinateFrameType
  | WestUpSouth : CoordinateFrameType
  | DownNorthEast : CoordinateFrameType
  | DownNorthWest : CoordinateFrameType
  | DownEastNorth : CoordinateFrameType
  | DownEastSouth : CoordinateFrameType
  | DownSouthEast : CoordinateFrameType
  | DownSouthWest : CoordinateFrameType
  | DownWestNorth : CoordinateFrameType
  | DownWestSouth : CoordinateFrameType
  | UpNorthEast : CoordinateFrameType
  | UpNorthWest : CoordinateFrameType
  | UpEastNorth : CoordinateFrameType
  | UpEastSouth : CoordinateFrameType
  | UpSouthEast : CoordinateFrameType
  | UpSouthWest : CoordinateFrameType
  | UpWestNorth : CoordinateFrameType
  | UpWestSouth : CoordinateFrameType
  | Other : CoordinateFrameType
  | Undefined : CoordinateFrameType
deriving DecidableEq, Repr, Fintype

/-- The `impl From<CoordinateFrameType> for u8` generated by the macro:
`value as u8`, i.e. the explicit discriminant of each variant. -/
def CoordinateFrameType.toU8 : CoordinateFrameType → Fin 256
  | .NorthEastDown => 0
  | .NorthEastUp => 1
  | .NorthWestDown => 2
  | .NorthWestUp => 3
  | .NorthDownEast => 4
  | .NorthDownWest => 5
  | .NorthUpEast => 6
  | .NorthUpWest => 7
  | .EastNorthDown => 8
  | .EastNorthUp => 9
  | .EastSouthDown => 10
  | .EastSouthUp => 11
  | .EastDownNorth => 12
  | .EastDownSouth => 13
  | .EastUpNorth => 14
  | .EastUpSouth => 15
  | .SouthEastDown => 16
  | .SouthEastUp => 17
  | .SouthWestDown => 18
  | .SouthWestUp => 19
  | .SouthDownEast => 20
  | .SouthDownWest => 21
  | .SouthUpEast => 22
  | .SouthUpWest => 23
  | .WestNorthDown => 24
  | .WestNorthUp => 25
  | .WestSouthDown => 26
  | .WestSouthUp => 27
  | .WestDownNorth => 28
  | .WestDownSouth => 29
  | .WestUpNorth => 30
  | .WestUpSouth => 31
  | .DownNorthEast => 32
  | .DownNorthWest => 33
  | .DownEastNorth => 34
  | .DownEastSouth => 35
  | .DownSouthEast => 36
  | .DownSouthWest => 37
  | .DownWestNorth => 38
  | .DownWestSouth => 39
  | .UpNorthEast => 40
  | .UpNorthWest => 41
  | .UpEastNorth => 42
  | .UpEastSouth => 43
  | .UpSouthEast => 44
  | .UpSouthWest => 45
  | .UpWestNorth => 46
  | .UpWestSouth => 47
  | .Other => 48
  | .Undefined => 255

/-- The `impl TryFrom<u8> for CoordinateFrameType` generated by the macro:
one match arm per declared variant (the sentinels included), with every
other byte mapped to `Err(ParseCoordinateFrameError::UnknownVariant)`. -/
def CoordinateFrameType.tryFromU8 (value : Fin 256) :
    Except ParseCoordinateFrameError CoordinateFrameType :=
  match value.val with
  | 0 => .ok .NorthEastDown
  | 1 => .ok .NorthEastUp
  | 2 => .ok .NorthWestDown
  | 3 => .ok .NorthWestUp
  | 4 => .ok .NorthDownEast
  | 5 => .ok .NorthDownWest
  | 6 => .ok .NorthUpEast
  | 7 => .ok .NorthUpWest
  | 8 => .ok .EastNorthDown
  | 9 => .ok .EastNorthUp
  | 10 => .ok .EastSouthDown
  | 11 => .ok .EastSouthUp
  | 12 => .ok .EastDownNorth
  | 13 => .ok .EastDownSouth
  | 14 => .ok .EastUpNorth
  | 15 => .ok .EastUpSouth
  | 16 => .ok .SouthEastDown
  | 17 => .ok .SouthEastUp
  | 18 => .ok .SouthWestDown
  | 19 => .ok .SouthWestUp
  | 20 => .ok .SouthDownEast
  | 21 => .ok .SouthDownWest
  | 22 => .ok .SouthUpEast
  | 23 => .ok .SouthUpWest
  | 24 => .ok .WestNorthDown
  | 25 => .ok .WestNorthUp
  | 26 => .ok .WestSouthDown
  | 27 => .ok .WestSouthUp
  | 28 => .ok .WestDownNorth
  | 29 => .ok .WestDownSouth
  | 30 => .ok .WestUpNorth
  | 31 => .ok .WestUpSouth
  | 32 => .ok .DownNorthEast
  | 33 => .ok .DownNorthWest
  | 34 => .ok .DownEastNorth
  | 35 => .ok .DownEastSouth
  | 36 => .ok .DownSouthEast
  | 37 => .ok .DownSouthWest
  | 38 => .ok .DownWestNorth
  | 39 => .ok .DownWestSouth
  | 40 => .ok .UpNorthEast
  | 41 => .ok .UpNorthWest
  | 42 => .ok .UpEastNorth
  | 43 => .ok .UpEastSouth
  | 44 => .ok .UpSouthEast
  | 45 => .ok .UpSouthWest
  | 46 => .ok .UpWestNorth
  | 47 => .ok .UpWestSouth
  | 48 => .ok .Other
  | 255 => .ok .Undefined
  | _ => .error .UnknownVariant

/-- Decidable equality for the result type of `TryFrom<u8>`. -/
instance : DecidableEq (Except ParseCoordinateFrameError CoordinateFrameType) :=
  fun a b =>
    match a, b with
    | .ok x, .ok y =>
      if h : x = y then .isTrue (congrArg Except.ok h)
      else .isFalse (fun hc => h (by injection hc))
    | .error x, .error y =>
      if h : x = y then .isTrue (congrArg Except.error h)
      else .isFalse (fun hc => h (by injection hc))
    | .ok _, .error _ => .isFalse (fun hc => Except.noConfusion hc)
    | .error _, .ok _ => .isFalse (fun hc => Except.noConfusion hc)

/-- C6 (counterexample): the byte 48 is not assigned to any real
(non-sentinel) frame — it encodes the sentinel `Other` — yet `TryFrom<u8>`
returns `Ok(Other)` for it rather than `Err(UnknownVariant)`. -/
theorem ordinal_sentinel_code_counterexample :
    CoordinateFrameType.tryFromU8 48 = Except.ok CoordinateFrameType.Other ∧
    CoordinateFrameType.tryFromU8 48 ≠
      Except.error ParseCoordinateFrameError.UnknownVariant := by
  decide

/-- C6 (amended): converting any catalogued `CoordinateFrameType` value
(sentinels included) to its `u8` ordinal and back yields `Ok` of the same
value, and `TryFrom<u8>` returns `Err(UnknownVariant)` exactly for the
bytes assigned to no catalogued variant, namely 49 through 254; the bytes
48 and 255 decode to the sentinels `Other` and `Undefined`. -/
theorem ordinal_roundtrip_amended :
    (∀ f : CoordinateFrameType, CoordinateFrameType.tryFromU8 f.toU8 = Except.ok f) ∧
    (∀ n : Fin 256, 49 ≤ n.val → n.val ≤ 254 →
      CoordinateFrameType.tryFromU8 n =
        Except.error ParseCoordinateFrameError.UnknownVariant) := by
  constructor
  · intro f
    cases f <;> rfl
  · decide

/-- C6 (witness): the amended ordinal facts applied concretely — the round
trip at `SouthWestUp` and the rejection of the unassigned byte 100. -/
theorem ordinal_roundtrip_amended_witness :
    CoordinateFrameType.tryFromU8 (CoordinateFrameType.SouthWestUp.toU8) =
      Except.ok CoordinateFrameType.SouthWestUp ∧
    CoordinateFrameType.tryFromU8 100 =
      Except.error ParseCoordinateFrameError.UnknownVariant :=
  ⟨ordinal_roundtrip_amended.1 CoordinateFrameType.SouthWestUp,
   ordinal_roundtrip_amended.2 100 (by decide) (by decide)⟩

/-- The macro's `axis_def_t`: the table behind the generated
`x_axis`/`y_axis`/`z_axis` base-vector bodies, generic over the scalar's
zero, one and negation.  The `west` row reproduces the source literally:
`[T::one().neg(), T::one(), T::zero()]`. -/
def axis_def_t {T : Type} (zero one : T) (neg : T → T) : Axis → Fin 3 → T
  | .north => ![zero, one, zero]
  | .south => ![zero, neg one, zero]
  | .east => ![one, zero, zero]
  | .west => ![neg one, one, zero]
  | .up => ![zero, zero, one]
  | .down => ![zero, zero, neg one]

/-- The generated `x_axis()`: the `axis_def_t` vector of the frame's first
component. -/
def x_axis {T : Type} (zero one : T) (neg : T → T) (f : Frame) : Fin 3 → T :=
  axis_def_t zero one neg f.c0

/-- The generated `y_axis()`: the `axis_def_t` vector of the frame's second
component. -/
def y_axis {T : Type} (zero one : T) (neg : T → T) (f : Frame) : Fin 3 → T :=
  axis_def_t zero one neg f.c1

/-- The generated `z_axis()`: the `axis_def_t` vector of the frame's third
component. -/
def z_axis {T : Type} (zero one : T) (neg : T → T) (f : Frame) : Fin 3 → T :=
  axis_def_t zero one neg f.c2

/-- C7 (counterexample): `NorthEastDown::x_axis()` returns [0, 1, 0] (the
global canonical vector of `north`), not the positional unit vector
[1, 0, 0] the claim requires; the repository's own test likewise asserts
`NorthEastDown::z_axis() == [0.0, 0.0, -1.0]`. -/
theorem base_vector_counterexample :
    x_axis (0 : Int) 1 Neg.neg nedFrame = ![(0 : Int), 1, 0] ∧
    x_axis (0 : Int) 1 Neg.neg nedFrame ≠ ![(1 : Int), 0, 0] ∧
    z_axis (0 : Int) 1 Neg.neg nedFrame = ![(0 : Int), 0, -1] := by
  decide

/-- C7 (amended): for every non-sentinel frame, `x_axis()`, `y_axis()` and
`z_axis()` return the canonical global-frame unit vector of the frame's
axis component at that position (north ↦ [0,1,0], south ↦ [0,-1,0],
east ↦ [1,0,0], up ↦ [0,0,1], down ↦ [0,0,-1]) — except that a `west`
component yields [-1, 1, 0] rather than the canonical [-1, 0, 0]. -/
theorem base_vectors_amended :
    ∀ f : Frame, f ∈ catalog →
      (f.c0 ≠ .west → x_axis (0 : Int) 1 Neg.neg f = axis_vec f.c0) ∧
      (f.c1 ≠ .west → y_axis (0 : Int) 1 Neg.neg f = axis_vec f.c1) ∧
      (f.c2 ≠ .west → z_axis (0 : Int) 1 Neg.neg f = axis_vec f.c2) ∧
      (f.c0 = .west → x_axis (0 : Int) 1 Neg.neg f = ![(-1 : Int), 1, 0]) ∧
      (f.c1 = .west → y_axis (0 : Int) 1 Neg.neg f = ![(-1 : Int), 1, 0]) ∧
      (f.c2 = .west → z_axis (0 : Int) 1 Neg.neg f = ![(-1 : Int), 1, 0]) := by
  decide

/-- C7 (witness): the amended base-vector behaviour at North-East-Down,
whose third component `down` yields the canonical [0, 0, -1]. -/
theorem base_vectors_amended_witness :
    z_axis (0 : Int) 1 Neg.neg nedFrame = axis_vec Axis.down :=
  (base_vectors_amended nedFrame (by decide)).2.2.1 (by decide)

/-- The generated `from_slice`: asserts that the input slice has length
exactly 3 — a panic, modelled as `none` — and otherwise copies the three
elements in order. -/
def from_slice {T : Type} (vec : List T) : Option (Fin 3 → T) :=
  if h : vec.length = 3 then
    some ![vec.get ⟨0, by omega⟩, vec.get ⟨1, by omega⟩, vec.get ⟨2, by omega⟩]
  else none

/-- C8: `from_slice` fails exactly when the slice length differs from 3,
and on a length-3 slice returns the coordinate with the elements in
order. -/
theorem from_slice_length_spec :
    ∀ (T : Type) (l : List T),
      ((from_slice l).isSome ↔ l.length = 3) ∧
      (∀ a b c : T, from_slice [a, b, c] = some ![a, b, c]) := by
  intro T l
  constructor
  · by_cases h : l.length = 3 <;> simp [from_slice, h]
  · intro a b c
    rfl

/-- C8 (witness): `from_slice` on the concrete length-3 slice [1, 2, 3]. -/
theorem from_slice_length_spec_witness :
    from_slice [(1 : Int), 2, 3] = some ![(1 : Int), 2, 3] :=
  (from_slice_length_spec Int [1, 2, 3]).2 1 2 3

/-- Positional components of a valid frame are pairwise distinct. -/
theorem comp_inj (f : Frame) (hf : f.valid = true) (i j : Fin 3)
    (h : f.comp i = f.comp j) : i = j := by
  revert hf h
  revert f i j
  decide

/-- A conversion whose destination components are all native in the source
is a sign-preserving permutation of the raw components, independent of the
scalar's saturating negation. -/
theorem convert_all_native (f dst : Frame) (_hf : f.valid = true)
    (hdst : dst.valid = true)
    (h : ∀ i, (f.nativeIdx (dst.comp i)).isSome = true) :
    ∃ π : Fin 3 → Fin 3, Function.Bijective π ∧
      ∀ (T : Type) (sneg : T → T) (v : Fin 3 → T) (i : Fin 3),
        convert sneg f dst v i = v (π i) := by
  refine ⟨fun i => (f.nativeIdx (dst.comp i)).get (h i), ?_, ?_⟩
  · rw [← Finite.injective_iff_bijective]
    intro i j hij
    dsimp only at hij
    have hi : f.comp ((f.nativeIdx (dst.comp i)).get (h i)) = dst.comp i :=
      comp_nativeIdx f (dst.comp i) _ (Option.some_get (h i)).symm
    have hj : f.comp ((f.nativeIdx (dst.comp j)).get (h j)) = dst.comp j :=
      comp_nativeIdx f (dst.comp j) _ (Option.some_get (h j)).symm
    rw [hij] at hi
    exact comp_inj dst hdst i j (hi.symm.trans hj)
  · intro T sneg v i
    exact getAxis_native sneg f v (dst.comp i) _ (Option.some_get (h i)).symm

/-- C9: for every non-sentinel frame whose native axes include north, east
and down, `to_ned()` reads only native components — its output is a
sign-preserving permutation of the raw components, independent of the
saturating negation — and on a North-East-Down instance it is the
identity; symmetrically for `to_enu()` with east, north and up, with the
East-North-Up case being the identity. -/
theorem to_ned_native_permutation :
    (∀ f : Frame, f ∈ catalog →
      (f.nativeIdx .north).isSome = true → (f.nativeIdx .east).isSome = true →
      (f.nativeIdx .down).isSome = true →
      ∃ π : Fin 3 → Fin 3, Function.Bijective π ∧
        ∀ (T : Type) (sneg : T → T) (v : Fin 3 → T) (i : Fin 3),
          toNed sneg f v i = v (π i)) ∧
    (∀ f : Frame, f ∈ catalog →
      (f.nativeIdx .east).isSome = true → (f.nativeIdx .north).isSome = true →
      (f.nativeIdx .up).isSome = true →
      ∃ π : Fin 3 → Fin 3, Function.Bijective π ∧
        ∀ (T : Type) (sneg : T → T) (v : Fin 3 → T) (i : Fin 3),
          toEnu sneg f v i = v (π i)) ∧
    (∀ (T : Type) (sneg : T → T) (v : Fin 3 → T), toNed sneg nedFrame v = v) ∧
    (∀ (T : Type) (sneg : T → T) (v : Fin 3 → T), toEnu sneg enuFrame v = v) := by
  refine ⟨?_, ?_, ?_, ?_⟩
  · intro f hf hn he hd
    refine convert_all_native f nedFrame (catalog_valid f hf) (by decide) ?_
    intro i
    fin_cases i
    · exact hn
    · exact he
    · exact hd
  · intro f hf he hn hu
    refine convert_all_native f enuFrame (catalog_valid f hf) (by decide) ?_
    intro i
    fin_cases i
    · exact he
    · exact hn
    · exact hu
  · intro T sneg v
    funext i
    fin_cases i <;> rfl
  · intro T sneg v
    funext i
    fin_cases i <;> rfl

/-- C9 (witness): the specialized paths exercised concretely — `to_ned` on
East-Down-North (all of north, east, down native) is a pure permutation,
and the identity cases on North-East-Down and East-North-Up with the `i8`
scalar model. -/
theorem to_ned_native_permutation_witness :
    (∃ π : Fin 3 → Fin 3, Function.Bijective π ∧
      ∀ (T : Type) (sneg : T → T) (v : Fin 3 → T) (i : Fin 3),
        toNed sneg ⟨.east, .down, .north⟩ v i = v (π i)) ∧
    toNed satNegI8 nedFrame ![(4 : Int), 5, 6] = ![(4 : Int), 5, 6] ∧
    toEnu satNegI8 enuFrame ![(4 : Int), 5, 6] = ![(4 : Int), 5, 6] :=
  ⟨to_ned_native_permutation.1 ⟨.east, .down, .north⟩ (by decide) (by decide)
      (by decide) (by decide),
   to_ned_native_permutation.2.2.1 Int satNegI8 ![(4 : Int), 5, 6],
   to_ned_native_permutation.2.2.2 Int satNegI8 ![(4 : Int), 5, 6]⟩

/-- Modelled from the spec: the physical global-frame vector a coordinate
denotes — the sum of its components times the canonical unit vectors of
the frame's axes (the spec's "coordinate's physical meaning" invariant).
Used only to state the right-hand-rule comparison. -/
def globalVector (f : Frame) (v : Fin 3 → Int) : Fin 3 → Int :=
  fun j => v 0 * axis_vec f.c0 j + v 1 * axis_vec f.c1 j + v 2 * axis_vec f.c2 j

/-- C10: `cross` is the standard positional formula and `dot` the
positional sum of products, on raw components with no dependence on the
frame; in the left-handed frame North-East-Up the returned cross product
of the first two positional basis vectors denotes global up, while the
physical cross product of the vectors they denote is global down — the
returned cross product does not follow the physical right-hand rule
there. -/
theorem cross_dot_positional :
    (∀ (T : Type) [Mul T] [Sub T] (a b : Fin 3 → T),
      cross a b =
        ![a 1 * b 2 - a 2 * b 1, a 2 * b 0 - a 0 * b 2, a 0 * b 1 - a 1 * b 0]) ∧
    (∀ (T : Type) [Mul T] [Add T] (a b : Fin 3 → T),
      dot a b = a 0 * b 0 + a 1 * b 1 + a 2 * b 2) ∧
    is_right_handed ⟨.north, .east, .up⟩ = false ∧
    globalVector ⟨.north, .east, .up⟩
        (cross ![(1 : Int), 0, 0] ![(0 : Int), 1, 0]) ≠
      cross (globalVector ⟨.north, .east, .up⟩ ![(1 : Int), 0, 0])
        (globalVector ⟨.north, .east, .up⟩ ![(0 : Int), 1, 0]) := by
  exact ⟨fun T _ _ a b => rfl, fun T _ _ a b => rfl, by decide, by decide⟩

/-- C10 (witness): `cross` and `dot` evaluated at the concrete integer
coordinates (1, 2, 3) and (4, 5, 6). -/
theorem cross_dot_positional_witness :
    cross ![(1 : Int), 2, 3] ![(4 : Int), 5, 6] = ![(-3 : Int), 6, -3] ∧
    dot ![(1 : Int), 2, 3] ![(4 : Int), 5, 6] = 32 := by
  constructor
  · rw [cross_dot_positional.1 Int ![(1 : Int), 2, 3] ![(4 : Int), 5, 6]]
    decide
  · rw [cross_dot_positional.2.1 Int ![(1 : Int), 2, 3] ![(4 : Int), 5, 6]]
    decide
